import Mathlib

/-!
Verification development for the BusinessInsight aggregation backend
(`src/main.py`, `src/schemas.py`).

The Python program is shallowly embedded: every HTTP/side-effecting
boundary (the three upstream fetchers, the document store, the clock)
is made an explicit parameter, and the route handlers become pure
functions from a request plus such an environment to a result, a store
state and an ordered event log.  The embedded functions mirror the
Python control flow of `src/main.py` line by line; comments below note
which source lines each definition corresponds to.
-/

namespace BusinessInsight

/-! ## Python string primitives

Small models of the Python `str` operations the program uses:
`str.strip`, `str.splitlines`, `str.split(",")`, `str.startswith`,
`str.lower`, `float(...)` and `int(...)` on the strings that occur in
the processed payloads. -/

/-- The characters Python `str.strip()` removes (ASCII whitespace). -/
def pyIsSpace (c : Char) : Bool :=
  c == ' ' || c == '\t' || c == '\n' || c == '\r' || c == '\x0b' || c == '\x0c'

def pyStripList (l : List Char) : List Char :=
  ((l.dropWhile pyIsSpace).reverse.dropWhile pyIsSpace).reverse

/-- Python `s.strip()`. -/
def pyStrip (s : String) : String :=
  String.mk (pyStripList s.toList)

/-- Python `s.splitlines()`: splits at `\n`, `\r` and `\r\n`, with no
trailing empty line for a trailing line break. -/
def splitlinesAux : List Char → List Char → List String
  | [], acc => if acc.isEmpty then [] else [String.mk acc.reverse]
  | '\r' :: '\n' :: rest, acc => String.mk acc.reverse :: splitlinesAux rest []
  | '\r' :: rest, acc => String.mk acc.reverse :: splitlinesAux rest []
  | '\n' :: rest, acc => String.mk acc.reverse :: splitlinesAux rest []
  | c :: rest, acc => splitlinesAux rest (c :: acc)

def splitlines (s : String) : List String :=
  splitlinesAux s.toList []

/-- Python `s.split(",")`; note `"".split(",") == [""]`. -/
def splitCommaAux : List Char → List Char → List String
  | [], acc => [String.mk acc.reverse]
  | ',' :: rest, acc => String.mk acc.reverse :: splitCommaAux rest []
  | c :: rest, acc => splitCommaAux rest (c :: acc)

def splitComma (s : String) : List String :=
  splitCommaAux s.toList []

def listStarts : List Char → List Char → Bool
  | [], _ => true
  | _ :: _, [] => false
  | p :: ps, c :: cs => p == c && listStarts ps cs

/-- Python `s.startswith(pre)`. -/
def pyStartsWith (s pre : String) : Bool :=
  listStarts pre.toList s.toList

def digitsToNat (l : List Char) : Nat :=
  l.foldl (fun a c => a * 10 + (c.toNat - 48)) 0

/-- Python `float(s)` on the plain fixed-point decimal strings that occur in
stooq CSV bodies: optional sign, then digits, `digits.digits`, `digits.` or
`.digits`.  (Exponents, `inf`/`nan` and surrounding whitespace, which Python
`float` also accepts, do not occur in these bodies and are not modelled.)
Returns `none` where Python raises `ValueError`. -/
def parsePyFloat (s : String) : Option ℚ :=
  let chars := s.toList
  let signed : ℚ × List Char :=
    match chars with
    | '-' :: r => (-1, r)
    | '+' :: r => (1, r)
    | r => (1, r)
  match signed.2.span Char.isDigit with
  | (intPart, []) =>
      if intPart.isEmpty then none
      else some (signed.1 * (digitsToNat intPart : ℚ))
  | (intPart, '.' :: fracChars) =>
      if fracChars.all Char.isDigit ∧ (intPart ≠ [] ∨ fracChars ≠ []) then
        some (signed.1 *
          ((digitsToNat intPart : ℚ) +
            (digitsToNat fracChars : ℚ) / (10 ^ fracChars.length)))
      else none
  | _ => none

/-- Python `int(x)` on a float value: truncation toward zero. -/
def pyTrunc (q : ℚ) : ℤ :=
  if 0 ≤ q then q.floor else q.ceil

/-- Python `a or b` for strings: `b` when `a` is falsy (empty), else `a`. -/
def pyOr (a b : String) : String :=
  if a = "" then b else a

/-- Python `lst[-limit:]`; note that for `limit = 0` Python yields the whole
list (`lst[-0:]` is `lst[0:]`). -/
def takeLast {α : Type} (limit : Nat) (l : List α) : List α :=
  if limit = 0 then l else l.drop (l.length - limit)

/-! ## Data model (`src/main.py` lines 24-39, `src/schemas.py`)

`last_refreshed` timestamps are abstract clock readings. -/

abbrev Timestamp := Nat

/-- `SearchRequest` (main.py lines 24-27). -/
structure SearchRequest where
  company : String
  ticker : Option String
  locale : Option String
deriving Repr, DecidableEq

/-- The placeholder `financials` dict built in `run_search` (lines 172-177):
`revenue`, `profit_margin` and `valuation` are always `None` there. -/
structure Financials where
  revenue : Option ℚ
  profit_margin : Option ℚ
  valuation : Option ℚ
  note : String
deriving Repr, DecidableEq

/-- The placeholder `pricing` dict (lines 186-189). -/
structure Pricing where
  model : String
  notes : String
deriving Repr, DecidableEq

/-- The placeholder `projections` dict (lines 191-194). -/
structure Projections where
  outlook : String
  assumptions : List String
deriving Repr, DecidableEq

/-- A competitor entry is a string-keyed map; the list stays empty in this
code (line 184). -/
abbrev Competitor := List (String × String)

/-- One row of the stooq CSV after parsing (the dict built at main.py
lines 143-150).  Prices are exact decimals, so they are carried as `ℚ`;
`open` is a Lean keyword, hence `open_`, matching the Python local
`open_` at line 142. -/
structure PriceBar where
  date : String
  open_ : ℚ
  high : ℚ
  low : ℚ
  close : ℚ
  volume : ℤ
deriving Repr, DecidableEq

/-- One news dict built per RSS item (main.py lines 108-116). -/
structure NewsItem where
  company : String
  title : String
  url : String
  source : String
  published_at : String
  summary : Option String
  tags : List String
deriving Repr, DecidableEq

/-- The snapshot dict persisted to the `insight` collection (lines 198-207).
Note there is no `prices` field. -/
structure InsightSnapshot where
  company : String
  summary : String
  financials : Financials
  market_trends : List String
  competitors : List Competitor
  pricing : Pricing
  projections : Projections
  last_refreshed : Timestamp
deriving Repr, DecidableEq

/-- `InsightResponse` (main.py lines 30-39). -/
structure InsightResponse where
  company : String
  summary : String
  financials : Financials
  market_trends : List String
  competitors : List Competitor
  pricing : Pricing
  projections : Projections
  prices : List PriceBar
  last_refreshed : Timestamp
deriving Repr, DecidableEq

/-- The query-log dict written to the `companyquery` collection (line 216). -/
structure QueryDoc where
  company : String
  locale : Option String
deriving Repr, DecidableEq

/-- `fastapi.HTTPException` as raised at main.py line 164. -/
structure HTTPError where
  status_code : Nat
  detail : String
deriving Repr, DecidableEq

/-! ## Upstream HTTP environments

Each fetcher's single HTTP interaction is reified as a value describing
what the network returned (or that the request raised). -/

/-- Outcome of the wikipedia summary request (main.py lines 82-85):
either some exception was raised (network failure, timeout, or a body
`r.json()` cannot parse), or a status code together with the optional
`extract` field of the decoded JSON body. -/
inductive WikiResponse where
  | netError
  | ok (status : Nat) (extract : Option String)
deriving Repr, DecidableEq

/-- One `item` element of the RSS document, as seen by the per-item walk
(main.py lines 102-107): each child element is either absent or present
with its text. -/
structure RssItem where
  title : Option String
  link : Option String
  pubDate : Option String
  source : Option String
  description : Option String
deriving Repr, DecidableEq

/-- One `item`-shaped region of the raw RSS text: either well-formed XML
(carrying the fields the walk reads) or malformed in a way that makes
`ET.fromstring` raise for the whole document. -/
inductive ItemSrc where
  | wellFormed (it : RssItem)
  | malformed
deriving Repr, DecidableEq

/-- Outcome of the news feed request (main.py line 98): the request raised,
or returned a status code and a body whose item regions are `doc`. -/
inductive RssFetchResult where
  | netError
  | ok (status : Nat) (doc : List ItemSrc)
deriving Repr, DecidableEq

/-- Outcome of the stooq CSV request (main.py line 134). -/
inductive StooqResponse where
  | netError
  | ok (status : Nat) (text : String)
deriving Repr, DecidableEq

/-! ## Upstream fetchers (main.py lines 79-155) -/

/-- `fetch_wikipedia_summary` (main.py lines 79-88): on status 200 return
the JSON `extract` field defaulting to `""`; on any exception or other
status return `""`. -/
def fetch_wikipedia_summary (company : String) (resp : WikiResponse) : String :=
  match resp with
  | .netError => ""
  | .ok status extract => if status = 200 then extract.getD "" else ""

/-- `ET.fromstring` over the item regions: any malformed region makes the
whole parse raise (`none`); otherwise all items are produced. -/
def parseRssItems : List ItemSrc → Option (List RssItem)
  | [] => some []
  | .malformed :: _ => none
  | .wellFormed it :: rest => (parseRssItems rest).map (fun l => it :: l)

/-- The dict appended for one item by the loop body (main.py lines 103-116):
absent children default `title`/`url`/`published_at` to `""`, `source` to
`"Google News"`, `summary` to `None`; `tags` is always `[]`. -/
def rssItemToNews (company : String) (it : RssItem) : NewsItem :=
  { company := company
    title := it.title.getD ""
    url := it.link.getD ""
    source := it.source.getD "Google News"
    published_at := it.pubDate.getD ""
    summary := it.description
    tags := [] }

/-- `fetch_google_news_rss` (main.py lines 91-120): non-2xx statuses raise
via `raise_for_status` and are swallowed to `[]`; a parse failure anywhere
in the document yields `[]`; otherwise the first `limit` items are
normalized.  The `locale` only affects the request URL (line 94-95), not
the parsing. -/
def fetch_google_news_rss (company : String) (locale : Option String)
    (limit : Nat) (resp : RssFetchResult) : List NewsItem :=
  match resp with
  | .netError => []
  | .ok status doc =>
      if 400 ≤ status then []
      else
        match parseRssItems doc with
        | none => []
        | some items => (items.take limit).map (rssItemToNews company)

/-- One CSV data row (main.py lines 141-152): split on commas into exactly
six fields, prices parsed as floats, volume as `int(float(volume))`;
`none` where the row unpacking or a numeric conversion raises. -/
def parsePriceRow (row : String) : Option PriceBar :=
  match splitComma row with
  | [date, o, h, l, c, v] =>
      match parsePyFloat o, parsePyFloat h, parsePyFloat l,
            parsePyFloat c, parsePyFloat v with
      | some o2, some h2, some l2, some c2, some v2 =>
          some { date := date, open_ := o2, high := h2, low := l2,
                 close := c2, volume := pyTrunc v2 }
      | _, _, _, _, _ => none
  | _ => none

/-- `fetch_stooq_prices` (main.py lines 123-155): falsy ticker (absent or
empty) returns `[]` before any request; request exception, non-200 status,
empty body or an HTML error page (body starting with `<!DOCTYPE`) return
`[]`; otherwise the header line is dropped, the trailing `limit` rows kept
(`lines[1:][-limit:]`), and each row parsed, skipping rows that fail. -/
def fetch_stooq_prices (ticker : Option String) (limit : Nat)
    (resp : StooqResponse) : List PriceBar :=
  match ticker with
  | none => []
  | some t =>
      if t = "" then []
      else
        match resp with
        | .netError => []
        | .ok status text =>
            if status ≠ 200 ∨ text = "" ∨ pyStartsWith text "<!DOCTYPE" = true
            then []
            else
              let lines := splitlines (pyStrip text)
              (takeLast limit (lines.drop 1)).filterMap parsePriceRow

/-! ## Document store and request environment

`database.py` (imported at main.py line 11) is not among the sources;
only its call sites are.  The store is therefore modelled from the spec:
`createDocument` appends the document to the named collection and may
fail; whether the k-th write attempt of a request succeeds is an oracle
`writeOk k`.  Each collection holds the typed documents this program
writes to it. -/

/-- Modelled from the spec: the document store's collections (`insight`,
`news`, `companyquery`), each a list of stored documents in insertion
order.  `database.create_document` is not in the sources; per the spec it
appends a document to a named collection and any failure raises to the
caller. -/
structure Store where
  insight : List InsightSnapshot
  news : List NewsItem
  companyquery : List QueryDoc
deriving Repr, DecidableEq

def emptyStore : Store := { insight := [], news := [], companyquery := [] }

/-- Observable effects of one request, in program order. -/
inductive Event where
  | fetchWiki (company : String)
  | fetchRss (company : String) (locale : Option String) (limit : Nat)
  | fetchStooq (ticker : Option String)
  | writeAttempt (collection : String) (ok : Bool)
deriving Repr, DecidableEq

/-- Everything outside the process that one `/api/search` request touches:
the three upstream responses, the per-attempt write outcome oracle, and
the clock (`datetime.utcnow` readings, indexed by call order). -/
structure Env where
  wiki : WikiResponse
  rss : RssFetchResult
  stooq : StooqResponse
  writeOk : Nat → Bool
  clock : Nat → Timestamp

/-- The news persistence loop (main.py lines 209-213): one
`create_document("news", n)` per item, each wrapped in its own
`try/except: continue`, so a failed write skips only that item.
`idx` numbers the write attempts for the oracle. -/
def writeNews (writeOk : Nat → Bool) : Nat → List NewsItem → Store →
    Store × List Event
  | _, [], s => (s, [])
  | idx, n :: rest, s =>
      if writeOk idx then
        let r := writeNews writeOk (idx + 1) rest
          { s with news := s.news ++ [n] }
        (r.1, Event.writeAttempt "news" true :: r.2)
      else
        let r := writeNews writeOk (idx + 1) rest s
        (r.1, Event.writeAttempt "news" false :: r.2)

/-- The persistence block of `run_search` (main.py lines 196-221).  The
outer `try` wraps the insight write, the news loop and the query-log
write; if the insight write raises, the outer `except` catches it and the
news and query-log writes are never attempted.  The query-log write has
its own `try/except: pass`. -/
def persistSearch (snapshot : InsightSnapshot) (news_items : List NewsItem)
    (company : String) (locale : Option String) (writeOk : Nat → Bool)
    (s : Store) : Store × List Event :=
  if writeOk 0 then
    let s1 : Store := { s with insight := s.insight ++ [snapshot] }
    let r := writeNews writeOk 1 news_items s1
    let queryOk := writeOk (1 + news_items.length)
    let s3 : Store :=
      if queryOk then
        { r.1 with companyquery := r.1.companyquery ++ [{ company := company, locale := locale }] }
      else r.1
    (s3, Event.writeAttempt "insight" true :: r.2 ++ [Event.writeAttempt "companyquery" queryOk])
  else
    (s, [Event.writeAttempt "insight" false])

/-- Result of one `/api/search` request: the HTTP outcome, the store state
after the request, and the event log. -/
structure SearchOutcome where
  result : Except HTTPError InsightResponse
  store : Store
  events : List Event

/-- The fixed `financials` placeholder (main.py lines 172-177). -/
def placeholderFinancials : Financials :=
  { revenue := none, profit_margin := none, valuation := none,
    note := "Financial metrics require premium data sources. Showing available open data only." }

/-- The fixed `pricing` placeholder (main.py lines 186-189). -/
def placeholderPricing : Pricing :=
  { model := "Unknown",
    notes := "Pricing analysis requires domain-specific sources." }

/-- The fixed `projections` placeholder (main.py lines 191-194). -/
def placeholderProjections : Projections :=
  { outlook := "Neutral", assumptions := ["Based on recent public signals only"] }

/-- `run_search` (main.py lines 160-233).  Validation, the three fetches
with their default limits (news 8, prices 60), placeholder analytics, the
best-effort persistence block, and the response.  `datetime.utcnow()` is
called exactly twice on the non-error path: reading 0 inside the snapshot
(line 206), reading 1 inside the response (line 232). -/
def run_search (payload : SearchRequest) (env : Env) (s : Store) :
    SearchOutcome :=
  let company := pyStrip payload.company
  if company = "" then
    { result := Except.error { status_code := 400, detail := "Company is required" }
      store := s
      events := [] }
  else
    let summary := fetch_wikipedia_summary company env.wiki
    let news_items := fetch_google_news_rss company payload.locale 8 env.rss
    let prices := fetch_stooq_prices payload.ticker 60 env.stooq
    let n := news_items.length
    let market_trends :=
      ["Media coverage: " ++ toString n ++ " recent articles discovered",
       "Monitoring public sources for mentions and sentiment"]
    let competitors : List Competitor := []
    let snapshot : InsightSnapshot :=
      { company := company
        summary := pyOr summary ("No summary available for " ++ company ++ ".")
        financials := placeholderFinancials
        market_trends := market_trends
        competitors := competitors
        pricing := placeholderPricing
        projections := placeholderProjections
        last_refreshed := env.clock 0 }
    let per := persistSearch snapshot news_items company payload.locale env.writeOk s
    { result := Except.ok
        { company := company
          summary := pyOr summary ("No summary available for " ++ company ++ ".")
          financials := placeholderFinancials
          market_trends := market_trends
          competitors := competitors
          pricing := placeholderPricing
          projections := placeholderProjections
          prices := prices
          last_refreshed := env.clock 1 }
      store := per.1
      events := [Event.fetchWiki company,
                 Event.fetchRss company payload.locale 8,
                 Event.fetchStooq payload.ticker] ++ per.2 }

/-- Modelled from the spec: `database.get_documents` is not in the sources;
per the spec the insights read-back returns up to `limit`
most-recently-stored documents matching the company exactly (newest
first). -/
def get_documents_insight (s : Store) (company : String) (limit : Nat) :
    List InsightSnapshot :=
  ((s.insight.filter (fun d => d.company == company)).reverse).take limit

/-- `get_insights` (main.py lines 236-256): read up to 3 stored snapshots
for the company (an unavailable store reads as no documents, per the
`try/except`), and rebuild `InsightResponse` records with `prices := []`
(line 253). -/
def get_insights (company : String) (available : Bool) (s : Store) :
    List InsightResponse :=
  let docs := if available then get_documents_insight s company 3 else []
  docs.map (fun d =>
    { company := d.company
      summary := d.summary
      financials := d.financials
      market_trends := d.market_trends
      competitors := d.competitors
      pricing := d.pricing
      projections := d.projections
      prices := []
      last_refreshed := d.last_refreshed })

/-! ## Helper lemmas -/

lemma parseRssItems_of_malformed :
    ∀ {l : List ItemSrc}, ItemSrc.malformed ∈ l → parseRssItems l = none := by
  intro l h
  induction l with
  | nil => cases h
  | cons a rest ih =>
      cases a with
      | malformed => rfl
      | wellFormed it =>
          have h' : ItemSrc.malformed ∈ rest := by simpa using h
          simp [parseRssItems, ih h']

lemma parseRssItems_map_wellFormed (l : List RssItem) :
    parseRssItems (l.map ItemSrc.wellFormed) = some l := by
  induction l with
  | nil => rfl
  | cons a rest ih => simp [parseRssItems, ih]

lemma length_filterMap_eq_countP {α β : Type} (f : α → Option β) (l : List α) :
    (l.filterMap f).length = l.countP (fun a => (f a).isSome) := by
  induction l with
  | nil => rfl
  | cons a rest ih =>
      cases hfa : f a <;>
        simp [List.filterMap_cons, hfa, List.countP_cons, ih]

/-! ## Claims about the upstream fetchers -/

/-- C5: if any item region of the RSS body is malformed so that the XML
parse throws, `fetch_google_news_rss` returns the empty list — the whole
fetch aborts and no partial list of the well-formed items is returned. -/
theorem news_malformed_item_aborts_whole_fetch
    (company : String) (locale : Option String) (limit : Nat)
    (status : Nat) (doc : List ItemSrc) (h : ItemSrc.malformed ∈ doc) :
    fetch_google_news_rss company locale limit (RssFetchResult.ok status doc) = [] := by
  simp only [fetch_google_news_rss]
  rw [parseRssItems_of_malformed h]
  by_cases hs : 400 ≤ status <;> simp [hs]

/-- A fully populated RSS item used for concrete bodies. -/
def sampleItem : RssItem :=
  { title := some "headline", link := some "https://x", pubDate := some "Mon",
    source := some "Paper", description := some "text" }

/-- An RSS body with 8 item regions of which exactly one (the third) is
malformed. -/
def docC5 : List ItemSrc :=
  [ItemSrc.wellFormed sampleItem, ItemSrc.wellFormed sampleItem,
   ItemSrc.malformed, ItemSrc.wellFormed sampleItem,
   ItemSrc.wellFormed sampleItem, ItemSrc.wellFormed sampleItem,
   ItemSrc.wellFormed sampleItem, ItemSrc.wellFormed sampleItem]

theorem news_malformed_item_aborts_whole_fetch_witness :
    docC5.length = 8
    ∧ docC5.countP (fun x => x == ItemSrc.malformed) = 1
    ∧ fetch_google_news_rss "Acme" none 8 (RssFetchResult.ok 200 docC5) = [] :=
  ⟨by decide, by decide,
   news_malformed_item_aborts_whole_fetch "Acme" none 8 200 docC5 (by decide)⟩

/-- C6: on a good price response (status 200, non-empty, non-HTML body),
`fetch_stooq_prices` returns exactly the selected data rows that parse —
each row that fails to parse is skipped individually, all others are
returned, so the count is the count of parseable selected rows. -/
theorem stooq_rows_skipped_individually
    (t : String) (limit : Nat) (status : Nat) (text : String)
    (ht : t ≠ "") (hs : status = 200) (hne : text ≠ "")
    (hd : pyStartsWith text "<!DOCTYPE" = false) :
    fetch_stooq_prices (some t) limit (StooqResponse.ok status text)
      = (takeLast limit ((splitlines (pyStrip text)).drop 1)).filterMap parsePriceRow
    ∧ (fetch_stooq_prices (some t) limit (StooqResponse.ok status text)).length
      = (takeLast limit ((splitlines (pyStrip text)).drop 1)).countP
          (fun row => (parsePriceRow row).isSome) := by
  have h1 : fetch_stooq_prices (some t) limit (StooqResponse.ok status text)
      = (takeLast limit ((splitlines (pyStrip text)).drop 1)).filterMap parsePriceRow := by
    unfold fetch_stooq_prices
    simp [ht, hs, hne, hd]
  exact ⟨h1, by rw [h1]; exact length_filterMap_eq_countP _ _⟩

/-- A CSV body with a header line and 10 data rows, of which exactly the
third fails to parse (non-numeric open price). -/
def csvC6 : String := String.intercalate "\n"
  ["Date,Open,High,Low,Close,Volume",
   "2024-01-01,1.0,2.0,0.5,1.5,100",
   "2024-01-02,1.5,2.5,1.0,2.0,200",
   "2024-01-03,oops,2.5,1.0,2.0,300",
   "2024-01-04,2.0,3.0,1.5,2.5,400",
   "2024-01-05,2.5,3.5,2.0,3.0,500",
   "2024-01-06,3.0,4.0,2.5,3.5,600",
   "2024-01-07,3.5,4.5,3.0,4.0,700",
   "2024-01-08,4.0,5.0,3.5,4.5,800",
   "2024-01-09,4.5,5.5,4.0,5.0,900",
   "2024-01-10,5.0,6.0,4.5,5.5,1000"]

theorem stooq_rows_skipped_individually_witness :
    (fetch_stooq_prices (some "aapl") 60 (StooqResponse.ok 200 csvC6)
      = (takeLast 60 ((splitlines (pyStrip csvC6)).drop 1)).filterMap parsePriceRow)
    ∧ ((splitlines (pyStrip csvC6)).drop 1).length = 10
    ∧ (fetch_stooq_prices (some "aapl") 60 (StooqResponse.ok 200 csvC6)).length = 9 :=
  ⟨(stooq_rows_skipped_individually "aapl" 60 200 csvC6
      (by decide) rfl (by decide) (by decide)).1,
   by decide, by decide⟩

/-- C7: `fetch_stooq_prices` is a total function into lists (it never
raises), and it returns the empty list on every absent-ticker or degraded
response path: no ticker (`None` or `""`, in which case the outcome is
independent of any HTTP response because no request is issued), a raised
request, a non-200 status, an empty body, or an HTML `<!DOCTYPE` body. -/
theorem stooq_never_raises_empty_cases
    (limit : Nat) (resp : StooqResponse) (t : String) (status : Nat) (text : String) :
    fetch_stooq_prices none limit resp = []
    ∧ fetch_stooq_prices (some "") limit resp = []
    ∧ fetch_stooq_prices (some t) limit StooqResponse.netError = []
    ∧ (status ≠ 200 → fetch_stooq_prices (some t) limit (StooqResponse.ok status text) = [])
    ∧ (text = "" → fetch_stooq_prices (some t) limit (StooqResponse.ok status text) = [])
    ∧ (pyStartsWith text "<!DOCTYPE" = true →
        fetch_stooq_prices (some t) limit (StooqResponse.ok status text) = []) := by
  refine ⟨rfl, by simp [fetch_stooq_prices], ?_, ?_, ?_, ?_⟩
  · by_cases hT : t = "" <;> simp [fetch_stooq_prices, hT]
  · intro h
    by_cases hT : t = "" <;> simp [fetch_stooq_prices, hT, h]
  · intro h
    by_cases hT : t = "" <;> simp [fetch_stooq_prices, hT, h]
  · intro h
    by_cases hT : t = "" <;> simp [fetch_stooq_prices, hT, h]

theorem stooq_never_raises_empty_cases_witness :
    fetch_stooq_prices none 60 StooqResponse.netError = []
    ∧ fetch_stooq_prices (some "") 60 StooqResponse.netError = []
    ∧ fetch_stooq_prices (some "aapl") 60 StooqResponse.netError = []
    ∧ fetch_stooq_prices (some "aapl") 60 (StooqResponse.ok 500 "x") = []
    ∧ fetch_stooq_prices (some "aapl") 60 (StooqResponse.ok 200 "") = []
    ∧ fetch_stooq_prices (some "aapl") 60
        (StooqResponse.ok 200 "<!DOCTYPE html>") = [] :=
  ⟨(stooq_never_raises_empty_cases 60 StooqResponse.netError "aapl" 500 "x").1,
   (stooq_never_raises_empty_cases 60 StooqResponse.netError "aapl" 500 "x").2.1,
   (stooq_never_raises_empty_cases 60 StooqResponse.netError "aapl" 500 "x").2.2.1,
   (stooq_never_raises_empty_cases 60 StooqResponse.netError "aapl" 500 "x").2.2.2.1
     (by decide),
   (stooq_never_raises_empty_cases 60 StooqResponse.netError "aapl" 200 "").2.2.2.2.1
     rfl,
   (stooq_never_raises_empty_cases 60 StooqResponse.netError "aapl" 200
      "<!DOCTYPE html>").2.2.2.2.2 (by decide)⟩

/-- C10: on a fully well-formed RSS document every item within the limit
is included (no skip, no abort), and each absent child element falls back
per the loop body: missing title or link gives `""`, missing pubDate
gives `""` for `published_at`, missing description gives a `none`
summary, missing source gives `"Google News"`. -/
theorem news_item_field_defaults
    (company : String) (locale : Option String) (limit : Nat)
    (items : List RssItem) (it : RssItem) :
    fetch_google_news_rss company locale limit
        (RssFetchResult.ok 200 (items.map ItemSrc.wellFormed))
      = (items.take limit).map (rssItemToNews company)
    ∧ (it.title = none → (rssItemToNews company it).title = "")
    ∧ (it.link = none → (rssItemToNews company it).url = "")
    ∧ (it.pubDate = none → (rssItemToNews company it).published_at = "")
    ∧ (it.description = none → (rssItemToNews company it).summary = none)
    ∧ (it.source = none → (rssItemToNews company it).source = "Google News") := by
  refine ⟨?_, ?_, ?_, ?_, ?_, ?_⟩
  · simp only [fetch_google_news_rss]
    rw [parseRssItems_map_wellFormed]
    simp
  all_goals intro h
  all_goals simp [rssItemToNews, h]

/-- An RSS item all of whose optional children are absent. -/
def bareItem : RssItem :=
  { title := none, link := none, pubDate := none, source := none,
    description := none }

theorem news_item_field_defaults_witness :
    fetch_google_news_rss "Acme" none 8
        (RssFetchResult.ok 200 ([bareItem].map ItemSrc.wellFormed))
      = [rssItemToNews "Acme" bareItem]
    ∧ (rssItemToNews "Acme" bareItem).title = ""
    ∧ (rssItemToNews "Acme" bareItem).url = ""
    ∧ (rssItemToNews "Acme" bareItem).published_at = ""
    ∧ (rssItemToNews "Acme" bareItem).summary = none
    ∧ (rssItemToNews "Acme" bareItem).source = "Google News" :=
  have h := news_item_field_defaults "Acme" none 8 [bareItem] bareItem
  ⟨h.1.trans rfl, h.2.1 rfl, h.2.2.1 rfl, h.2.2.2.1 rfl,
   h.2.2.2.2.1 rfl, h.2.2.2.2.2 rfl⟩

/-! ## Characterizing the non-error path of `run_search` -/

/-- The news items fetched by a search (main.py line 168). -/
def searchNews (payload : SearchRequest) (env : Env) : List NewsItem :=
  fetch_google_news_rss (pyStrip payload.company) payload.locale 8 env.rss

/-- The summary string a search stores and returns (lines 200 and 225). -/
def searchSummary (payload : SearchRequest) (env : Env) : String :=
  pyOr (fetch_wikipedia_summary (pyStrip payload.company) env.wiki)
    ("No summary available for " ++ pyStrip payload.company ++ ".")

/-- The `market_trends` list of a search (lines 179-182). -/
def searchTrends (payload : SearchRequest) (env : Env) : List String :=
  ["Media coverage: " ++ toString (searchNews payload env).length
      ++ " recent articles discovered",
   "Monitoring public sources for mentions and sentiment"]

/-- The snapshot dict a search persists (lines 198-207). -/
def searchSnapshot (payload : SearchRequest) (env : Env) : InsightSnapshot :=
  { company := pyStrip payload.company
    summary := searchSummary payload env
    financials := placeholderFinancials
    market_trends := searchTrends payload env
    competitors := []
    pricing := placeholderPricing
    projections := placeholderProjections
    last_refreshed := env.clock 0 }

/-- The response a search returns (lines 223-233). -/
def searchResponse (payload : SearchRequest) (env : Env) : InsightResponse :=
  { company := pyStrip payload.company
    summary := searchSummary payload env
    financials := placeholderFinancials
    market_trends := searchTrends payload env
    competitors := []
    pricing := placeholderPricing
    projections := placeholderProjections
    prices := fetch_stooq_prices payload.ticker 60 env.stooq
    last_refreshed := env.clock 1 }

lemma run_search_ok (payload : SearchRequest) (env : Env) (s : Store)
    (h : pyStrip payload.company ≠ "") :
    run_search payload env s =
      { result := Except.ok (searchResponse payload env)
        store := (persistSearch (searchSnapshot payload env) (searchNews payload env)
            (pyStrip payload.company) payload.locale env.writeOk s).1
        events := [Event.fetchWiki (pyStrip payload.company),
                   Event.fetchRss (pyStrip payload.company) payload.locale 8,
                   Event.fetchStooq payload.ticker]
          ++ (persistSearch (searchSnapshot payload env) (searchNews payload env)
              (pyStrip payload.company) payload.locale env.writeOk s).2 } := by
  simp only [run_search, searchResponse, searchSnapshot, searchSummary,
    searchTrends, searchNews, if_neg h]

lemma writeNews_fst_insight (w : Nat → Bool) :
    ∀ (l : List NewsItem) (idx : Nat) (s : Store),
      (writeNews w idx l s).1.insight = s.insight := by
  intro l
  induction l with
  | nil => intro idx s; rfl
  | cons n rest ih =>
      intro idx s
      by_cases hw : w idx <;> simp [writeNews, hw, ih]

lemma writeNews_snd (w : Nat → Bool) :
    ∀ (l : List NewsItem) (idx : Nat) (s : Store),
      (writeNews w idx l s).2
        = (List.range' idx l.length).map (fun i => Event.writeAttempt "news" (w i)) := by
  intro l
  induction l with
  | nil => intro idx s; simp [writeNews]
  | cons n rest ih =>
      intro idx s
      by_cases hw : w idx <;> simp [writeNews, hw, ih, List.range'_succ]

lemma persistSearch_fst_insight (snap : InsightSnapshot) (news : List NewsItem)
    (c : String) (loc : Option String) (w : Nat → Bool) (s : Store)
    (hw : w 0 = true) :
    (persistSearch snap news c loc w s).1.insight = s.insight ++ [snap] := by
  simp only [persistSearch, hw, if_true]
  by_cases hq : w (1 + news.length) <;> simp [hq, writeNews_fst_insight]

lemma persistSearch_snd (snap : InsightSnapshot) (news : List NewsItem)
    (c : String) (loc : Option String) (w : Nat → Bool) (s : Store)
    (hw : w 0 = true) :
    (persistSearch snap news c loc w s).2
      = Event.writeAttempt "insight" true
          :: (List.range' 1 news.length).map (fun i => Event.writeAttempt "news" (w i))
          ++ [Event.writeAttempt "companyquery" (w (1 + news.length))] := by
  simp only [persistSearch, hw, if_true]
  by_cases hq : w (1 + news.length) <;> simp [hq, writeNews_snd]

/-! ## Claims about the HTTP surface -/

/-- A fixed benign environment used by the concrete witnesses. -/
def envW : Env :=
  { wiki := WikiResponse.netError
    rss := RssFetchResult.netError
    stooq := StooqResponse.netError
    writeOk := fun _ => true
    clock := fun i => i }

/-- A fixed valid request used by the concrete witnesses. -/
def payloadA : SearchRequest :=
  { company := "Acme", ticker := none, locale := none }

/-- C2: a company that is empty after trimming is rejected with a 400
`Company is required` error before any upstream fetch: the event log of
such a request is empty. -/
theorem search_empty_company_rejected
    (payload : SearchRequest) (env : Env) (s : Store)
    (h : pyStrip payload.company = "") :
    (run_search payload env s).result
      = Except.error { status_code := 400, detail := "Company is required" }
    ∧ (run_search payload env s).events = [] := by
  constructor <;> simp [run_search, h]

theorem search_empty_company_rejected_witness :
    (run_search { company := "   ", ticker := none, locale := none } envW emptyStore).result
      = Except.error { status_code := 400, detail := "Company is required" }
    ∧ (run_search { company := "   ", ticker := none, locale := none } envW emptyStore).events
      = [] :=
  search_empty_company_rejected
    { company := "   ", ticker := none, locale := none } envW emptyStore (by decide)

/-- C1: for a valid (non-empty trimmed) company, the HTTP result of a
search — status and assembled body alike — is the same whatever the
write-outcome oracle and the prior store state; persistence failure is
never surfaced to the caller. -/
theorem search_result_unaffected_by_persistence
    (payload : SearchRequest) (env : Env) (w : Nat → Bool) (s s0 : Store)
    (h : pyStrip payload.company ≠ "") :
    (run_search payload { env with writeOk := w } s).result
      = (run_search payload env s0).result := by
  rw [run_search_ok payload { env with writeOk := w } s h,
      run_search_ok payload env s0 h]
  simp [searchResponse, searchSummary, searchTrends, searchNews]

theorem search_result_unaffected_by_persistence_witness :
    (run_search payloadA { envW with writeOk := fun _ => false } emptyStore).result
      = (run_search payloadA envW emptyStore).result :=
  search_result_unaffected_by_persistence payloadA envW (fun _ => false)
    emptyStore emptyStore (by decide)

/-- C8: the encyclopedia fetch yields `""` on a raised request, a non-200
status, or a 200 body without an `extract` field; and whenever it yields
`""`, the summary of the returned Insight is exactly
`"No summary available for <company>."` with the trimmed company name. -/
theorem search_summary_default
    (payload : SearchRequest) (env : Env) (s : Store)
    (h : pyStrip payload.company ≠ "") :
    (∀ (st : Nat) (ex : Option String), st ≠ 200 →
        fetch_wikipedia_summary (pyStrip payload.company) (WikiResponse.ok st ex) = "")
    ∧ fetch_wikipedia_summary (pyStrip payload.company) WikiResponse.netError = ""
    ∧ fetch_wikipedia_summary (pyStrip payload.company) (WikiResponse.ok 200 none) = ""
    ∧ (fetch_wikipedia_summary (pyStrip payload.company) env.wiki = "" →
        ∃ resp, (run_search payload env s).result = Except.ok resp
          ∧ resp.summary
              = "No summary available for " ++ pyStrip payload.company ++ ".") := by
  refine ⟨?_, rfl, rfl, ?_⟩
  · intro st ex hst
    simp [fetch_wikipedia_summary, hst]
  · intro hwiki
    refine ⟨searchResponse payload env, ?_, ?_⟩
    · rw [run_search_ok payload env s h]
    · simp [searchResponse, searchSummary, hwiki, pyOr]

/-- The environment of the C8 witness: the encyclopedia endpoint answers
HTTP 500. -/
def envC8 : Env := { envW with wiki := WikiResponse.ok 500 (some "Acme is a company.") }

theorem search_summary_default_witness :
    ∃ resp, (run_search payloadA envC8 emptyStore).result = Except.ok resp
      ∧ resp.summary = "No summary available for Acme." := by
  obtain ⟨resp, h1, h2⟩ :=
    (search_summary_default payloadA envC8 emptyStore (by decide)).2.2.2 (by decide)
  exact ⟨resp, h1, h2.trans (by decide)⟩

/-- C9: on a successful search whose insight write succeeds, the persisted
snapshot and the HTTP response agree on company, summary, financials,
market_trends, competitors, pricing and projections, but their
`last_refreshed` fields are two separate clock reads — the snapshot takes
reading 0 and the response reading 1 — so they need not be equal. -/
theorem snapshot_and_response_use_separate_clock_reads
    (payload : SearchRequest) (env : Env) (s : Store)
    (h : pyStrip payload.company ≠ "") (hw : env.writeOk 0 = true) :
    ∃ resp snap,
      (run_search payload env s).result = Except.ok resp
      ∧ (run_search payload env s).store.insight = s.insight ++ [snap]
      ∧ snap.company = resp.company
      ∧ snap.summary = resp.summary
      ∧ snap.financials = resp.financials
      ∧ snap.market_trends = resp.market_trends
      ∧ snap.competitors = resp.competitors
      ∧ snap.pricing = resp.pricing
      ∧ snap.projections = resp.projections
      ∧ snap.last_refreshed = env.clock 0
      ∧ resp.last_refreshed = env.clock 1 := by
  refine ⟨searchResponse payload env, searchSnapshot payload env,
    ?_, ?_, rfl, rfl, rfl, rfl, rfl, rfl, rfl, rfl, rfl⟩
  · rw [run_search_ok payload env s h]
  · rw [run_search_ok payload env s h]
    exact persistSearch_fst_insight _ _ _ _ _ _ hw

theorem snapshot_and_response_use_separate_clock_reads_witness :
    ∃ resp snap,
      (run_search payloadA envW emptyStore).result = Except.ok resp
      ∧ (run_search payloadA envW emptyStore).store.insight = [snap]
      ∧ snap.company = resp.company ∧ snap.summary = resp.summary
      ∧ snap.last_refreshed ≠ resp.last_refreshed := by
  obtain ⟨resp, snap, h1, h2, h3, h4, _, _, _, _, _, h9, h10⟩ :=
    snapshot_and_response_use_separate_clock_reads payloadA envW emptyStore
      (by decide) rfl
  exact ⟨resp, snap, h1, by simpa using h2, h3, h4, by rw [h9, h10]; decide⟩

/-- C4: after a search whose insight write succeeds, reading back via the
insights-by-company query with the same (trimmed) company yields a most
recent record whose company and summary equal those of the assembled
Insight response, while its prices list is empty regardless of the prices
in the assembled record. -/
theorem search_insights_roundtrip
    (payload : SearchRequest) (env : Env) (s : Store)
    (h : pyStrip payload.company ≠ "") (hw : env.writeOk 0 = true) :
    ∃ resp r,
      (run_search payload env s).result = Except.ok resp
      ∧ (get_insights (pyStrip payload.company) true
            (run_search payload env s).store).head? = some r
      ∧ r.company = resp.company
      ∧ r.summary = resp.summary
      ∧ r.prices = [] := by
  have hstore : (run_search payload env s).store.insight
      = s.insight ++ [searchSnapshot payload env] := by
    rw [run_search_ok payload env s h]
    exact persistSearch_fst_insight _ _ _ _ _ _ hw
  have hres : (run_search payload env s).result
      = Except.ok (searchResponse payload env) := by
    rw [run_search_ok payload env s h]
  have hdocs : get_documents_insight (run_search payload env s).store
      (pyStrip payload.company) 3
      = searchSnapshot payload env
          :: ((s.insight.filter
                (fun d => d.company == pyStrip payload.company)).reverse).take 2 := by
    unfold get_documents_insight
    rw [hstore, List.filter_append, List.reverse_append]
    simp [searchSnapshot]
  refine ⟨searchResponse payload env,
    { company := (searchSnapshot payload env).company
      summary := (searchSnapshot payload env).summary
      financials := (searchSnapshot payload env).financials
      market_trends := (searchSnapshot payload env).market_trends
      competitors := (searchSnapshot payload env).competitors
      pricing := (searchSnapshot payload env).pricing
      projections := (searchSnapshot payload env).projections
      prices := []
      last_refreshed := (searchSnapshot payload env).last_refreshed },
    hres, ?_, rfl, rfl, rfl⟩
  unfold get_insights
  simp only [if_true, hdocs, List.map_cons, List.head?_cons]

theorem search_insights_roundtrip_witness :
    ∃ resp r,
      (run_search payloadA envW emptyStore).result = Except.ok resp
      ∧ (get_insights "Acme" true (run_search payloadA envW emptyStore).store).head?
          = some r
      ∧ r.company = resp.company ∧ r.summary = resp.summary ∧ r.prices = [] :=
  search_insights_roundtrip payloadA envW emptyStore (by decide) rfl

/-- The environment of the C3 counterexample: one news item is fetched and
every document write fails. -/
def envC3 : Env :=
  { wiki := WikiResponse.netError
    rss := RssFetchResult.ok 200 [ItemSrc.wellFormed sampleItem]
    stooq := StooqResponse.netError
    writeOk := fun _ => false
    clock := fun i => i }

/-- C3 counterexample: with one fetched news item and a failing insight
write, the only write attempted is the insight one — the news write and
the query-log write are never attempted, so the failure of one write
(the insight write) does prevent the remaining writes. -/
theorem insight_write_failure_skips_remaining_writes :
    (fetch_google_news_rss "Acme" none 8 envC3.rss).length = 1
    ∧ (run_search payloadA envC3 emptyStore).events
      = [Event.fetchWiki "Acme", Event.fetchRss "Acme" none 8,
         Event.fetchStooq none, Event.writeAttempt "insight" false] :=
  ⟨by decide, by decide⟩

/-- C3 (amended): once the insight write has succeeded, the per-item news
writes and the query-log write are independent best-effort operations —
each is attempted whatever the outcomes of the writes before it, and a
partial write is an accepted outcome; but a failure of the insight write
itself aborts the persistence block, skipping the news and query-log
writes. -/
theorem news_and_query_writes_best_effort
    (payload : SearchRequest) (env : Env) (s : Store)
    (h : pyStrip payload.company ≠ "") (hw : env.writeOk 0 = true) :
    (run_search payload env s).events
      = [Event.fetchWiki (pyStrip payload.company),
         Event.fetchRss (pyStrip payload.company) payload.locale 8,
         Event.fetchStooq payload.ticker,
         Event.writeAttempt "insight" true]
        ++ (List.range' 1 (searchNews payload env).length).map
             (fun i => Event.writeAttempt "news" (env.writeOk i))
        ++ [Event.writeAttempt "companyquery"
             (env.writeOk (1 + (searchNews payload env).length))] := by
  rw [run_search_ok payload env s h]
  simp [persistSearch_snd _ _ _ _ _ _ hw]

/-- The environment of the C3 witness: two news items; the insight write
succeeds, the first news write fails, the second succeeds, the query-log
write fails — all four writes are still attempted. -/
def envC3A : Env :=
  { wiki := WikiResponse.netError
    rss := RssFetchResult.ok 200
        [ItemSrc.wellFormed sampleItem, ItemSrc.wellFormed sampleItem]
    stooq := StooqResponse.netError
    writeOk := fun k => k == 0 || k == 2
    clock := fun i => i }

theorem news_and_query_writes_best_effort_witness :
    (run_search payloadA envC3A emptyStore).events
      = [Event.fetchWiki "Acme", Event.fetchRss "Acme" none 8,
         Event.fetchStooq none,
         Event.writeAttempt "insight" true,
         Event.writeAttempt "news" false,
         Event.writeAttempt "news" true,
         Event.writeAttempt "companyquery" false] :=
  (news_and_query_writes_best_effort payloadA envC3A emptyStore
    (by decide) rfl).trans (by decide)

end BusinessInsight
